import Mathlib

/-!
Verification of the cronmonitor-example repository (Python sources
`cronmonitor.py` and `simple.py`) against its natural-language specification.

The embedding models one HTTP attempt by its observable outcome: either the
server delivers a final response with some HTTP status, or the request fails
with a timeout, a transport-level error, or some other exception.  Python's
`urllib.request.urlopen` returns the response object only when the final
status is in the 2xx range (its `HTTPErrorProcessor` raises `HTTPError`, a
subclass of `URLError`, for every status outside 200..299); timeouts and
connection problems raise `URLError` or `TimeoutError`, all subclasses of
`Exception`.  Sleeps are recorded as exact rationals: the delays computed by
the source (`0.5 * attempt` for small integer `attempt`) are exactly
representable, so no floating-point approximation is involved.
-/

/-- Observable outcome of one HTTP attempt against the ping endpoint. -/
inductive AttemptOutcome : Type
  /-- The server delivered a final response carrying this HTTP status. -/
  | response (status : Nat)
  /-- The request timed out. -/
  | timeout
  /-- A transport-level failure (DNS, connection refused, ...), raised as
  `urllib.error.URLError`. -/
  | transportError
  /-- Any other exception raised by the request machinery (subclass of
  `Exception`). -/
  | otherError
deriving DecidableEq, Repr

/-- Exceptions that `urllib.request.urlopen` can raise, as modeled here. -/
inductive PyExn : Type
  /-- `urllib.error.HTTPError` carrying the status; raised for every final
  status outside 200..299.  Subclass of `URLError`. -/
  | httpError (status : Nat)
  /-- `urllib.error.URLError`: transport-level failure. -/
  | urlError
  /-- Timeout (`TimeoutError` / `socket.timeout`). -/
  | timeoutErr
  /-- Any other `Exception`. -/
  | otherExn
deriving DecidableEq, Repr

/-- `urllib.error.URLError` and its subclasses. -/
def PyExn.isURLError : PyExn → Bool
  | .httpError _ => true
  | .urlError => true
  | .timeoutErr => false
  | .otherExn => false

/-- Every exception modeled here is a subclass of Python's `Exception`
(`URLError <: OSError <: Exception`, `TimeoutError <: OSError <: Exception`). -/
def PyExn.isException : PyExn → Bool
  | _ => true

/-- Semantics of `urllib.request.urlopen`: returns the final HTTP status when
it is in 200..299, otherwise raises (`HTTPError` for an out-of-range status,
the corresponding exception for timeouts and transport errors). -/
def urlopen : AttemptOutcome → Except PyExn Nat
  | .response s => if 200 ≤ s ∧ s < 300 then .ok s else .error (.httpError s)
  | .timeout => .error .timeoutErr
  | .transportError => .error .urlError
  | .otherError => .error .otherExn

/-- `cronmonitor.CronMonitor.BASE_URL`. -/
def BASE_URL : String := "https://cronmonitor.app"

/-- The configuration fields of `cronmonitor.CronMonitor`. -/
structure CronMonitor : Type where
  token : String
  timeout : Int
  retries : Int
  verbose : Bool
  ping_url : String
deriving DecidableEq, Repr

/-- `CronMonitor.__init__`: stores the four arguments unchanged and derives
`_ping_url = f"{BASE_URL}/ping/{token}"`.  No validation is performed. -/
def CronMonitor.init (token : String) (timeout : Int) (retries : Int)
    (verbose : Bool) : CronMonitor :=
  ⟨token, timeout, retries, verbose, BASE_URL ++ "/ping/" ++ token⟩

/-- The attempt indices visited by `for attempt in range(1, retries + 1)`:
the list `[1, 2, ..., retries]`, empty when `retries ≤ 0`. -/
def attemptIndices (retries : Int) : List Nat :=
  List.range' 1 retries.toNat

/-- The `response.status == 200` test guarding the early `return True`,
evaluated on an attempt outcome: true exactly when `urlopen` returned
normally and the status is 200. -/
def success200 (o : AttemptOutcome) : Bool :=
  match urlopen o with
  | .ok s => s == 200
  | .error _ => false

/-- Observable trace of one `ping()` call: the boolean result, the attempt
indices at which an HTTP request was issued (in order), and the sleep
durations in seconds (in order). -/
structure PingTrace : Type where
  result : Bool
  requests : List Nat
  sleeps : List ℚ
deriving DecidableEq, Repr

/-- The body of `CronMonitor.ping`'s retry loop over the remaining attempt
indices.  Each iteration issues one request; on status 200 it returns `True`
immediately; any other outcome (non-200 status, or a caught exception) falls
through to the backoff: `if attempt < self.retries: time.sleep(0.5 * attempt)`. -/
def pingFrom (m : CronMonitor) (env : Nat → AttemptOutcome) :
    List Nat → PingTrace
  | [] => ⟨false, [], []⟩
  | a :: rest =>
    if success200 (env a) then
      ⟨true, [a], []⟩
    else
      ⟨(pingFrom m env rest).result, a :: (pingFrom m env rest).requests,
        if (a : Int) < m.retries then
          ((1 : ℚ)/2) * a :: (pingFrom m env rest).sleeps
        else (pingFrom m env rest).sleeps⟩

/-- `CronMonitor.ping` in state-passing form: the method body contains no
assignment to `self`, so the post-state equals the receiver. -/
def CronMonitor.pingOp (m : CronMonitor) (env : Nat → AttemptOutcome) :
    PingTrace × CronMonitor :=
  (pingFrom m env (attemptIndices m.retries), m)

/-- `CronMonitor.ping`: the observable trace of one call. -/
def CronMonitor.ping (m : CronMonitor) (env : Nat → AttemptOutcome) :
    PingTrace :=
  (m.pingOp env).1

/-- The `try` block of one loop iteration: `urlopen` then the status test.
`.ok b` means the block completed with `b` telling whether the early
`return True` fires; `.error e` means an exception escaped the block. -/
def tryBody (env : Nat → AttemptOutcome) (a : Nat) : Except PyExn Bool :=
  match urlopen (env a) with
  | .ok s => .ok (s == 200)
  | .error e => .error e

/-- The two `except` clauses: `except urllib.error.URLError` then
`except Exception`, both of which only log and fall through; an exception
matched by neither would propagate. -/
def handleAttempt (r : Except PyExn Bool) : Except PyExn Bool :=
  match r with
  | .ok b => .ok b
  | .error e =>
    if e.isURLError then .ok false
    else if e.isException then .ok false
    else .error e

/-- `CronMonitor.ping` with the exception paths kept explicit: an uncaught
exception in some iteration surfaces as `.error`. -/
def pingFromE (m : CronMonitor) (env : Nat → AttemptOutcome) :
    List Nat → Except PyExn PingTrace
  | [] => .ok ⟨false, [], []⟩
  | a :: rest =>
    match handleAttempt (tryBody env a) with
    | .error e => .error e
    | .ok true => .ok ⟨true, [a], []⟩
    | .ok false =>
      match pingFromE m env rest with
      | .error e => .error e
      | .ok t =>
        .ok ⟨t.result, a :: t.requests,
          if (a : Int) < m.retries then ((1 : ℚ)/2) * a :: t.sleeps
          else t.sleeps⟩

/-- `CronMonitor.ping` with explicit exception propagation. -/
def CronMonitor.pingE (m : CronMonitor) (env : Nat → AttemptOutcome) :
    Except PyExn PingTrace :=
  pingFromE m env (attemptIndices m.retries)

/-- `CronMonitor.wrap`'s returned `wrapper`, in state-passing form, applied
to the outcome of `func(*args, **kwargs)`: if the wrapped call raises, the
exception propagates before `self.ping()` is reached (no requests); if it
returns `v`, `self.ping()` runs (its boolean result is dropped) and the
wrapper returns `v`.  The second component lists the HTTP requests issued;
the post-state equals the receiver (no assignment to `self`). -/
def CronMonitor.wrapOp {E V : Type} (m : CronMonitor)
    (env : Nat → AttemptOutcome) (job : Except E V) :
    (Except E V × List Nat) × CronMonitor :=
  match job with
  | .error e => ((.error e, []), m)
  | .ok v => ((.ok v, (m.ping env).requests), m)

/-- Result and requests of one call to the wrapper. -/
def CronMonitor.wrap {E V : Type} (m : CronMonitor)
    (env : Nat → AttemptOutcome) (job : Except E V) :
    Except E V × List Nat :=
  (m.wrapOp env job).1

/-- `CronMonitor.__enter__`: logs and returns `self`; second component is
the post-state (no assignment to `self`). -/
def CronMonitor.enterOp (m : CronMonitor) : CronMonitor × CronMonitor :=
  (m, m)

/-- `CronMonitor.__exit__` in state-passing form, applied to `exc_type`
(`none` when the scope body completed normally).  Returns, besides the
post-state: the value returned to the interpreter (`False`, so an exception
is never suppressed), the number of `self.ping()` invocations, and the HTTP
requests issued. -/
def CronMonitor.exitOp {E : Type} (m : CronMonitor)
    (env : Nat → AttemptOutcome) (exc_type : Option E) :
    (Bool × Nat × List Nat) × CronMonitor :=
  match exc_type with
  | none => ((false, 1, (m.ping env).requests), m)
  | some _ => ((false, 0, []), m)

/-- Observable part of `CronMonitor.__exit__`. -/
def CronMonitor.exitCtx {E : Type} (m : CronMonitor)
    (env : Nat → AttemptOutcome) (exc_type : Option E) :
    Bool × Nat × List Nat :=
  (m.exitOp env exc_type).1

/-- The module-level convenience function `cronmonitor.ping`:
`CronMonitor(token, timeout=timeout).ping()`, where `__init__` fills in its
defaults `retries=3`, `verbose=False`. -/
def pingStandalone (token : String) (timeout : Int)
    (env : Nat → AttemptOutcome) : PingTrace :=
  (CronMonitor.init token timeout 3 false).ping env

/-- The spec's description of the standalone operation, written from its
words: "constructs a default-configured Notifier" — all remaining
configuration at its defaults (`retries = 3`, `verbose = false`) — "and
calls attemptDelivery()". -/
def pingSpecDefault (token : String) (timeout : Int)
    (env : Nat → AttemptOutcome) : PingTrace :=
  (CronMonitor.init token timeout 3 false).ping env

namespace Simple

/-- `simple.PING_URL`. -/
def PING_URL : String := "https://cronmonitor.app/ping/YOUR_TOKEN"

/-- `simple.ping_cronmonitor`: one `urlopen` call; returns `True` iff it
returned normally.  The response's status is never inspected. -/
def ping_cronmonitor (o : AttemptOutcome) : Bool :=
  match urlopen o with
  | .ok _ => true
  | .error _ => false

/-- How one run of `simple.run_job` (the caller-supplied job logic) can end,
as distinguished by `main`'s handlers. -/
inductive JobOutcome : Type
  /-- `run_job()` returned normally. -/
  | completes
  /-- `run_job()` raised `KeyboardInterrupt`. -/
  | keyboardInterrupt
  /-- `run_job()` raised some other `Exception`. -/
  | raisesExc
deriving DecidableEq, Repr

/-- `simple.main`: runs the job; on success calls `ping_cronmonitor` (its
boolean is dropped) and returns 0; `KeyboardInterrupt` and any other
`Exception` are caught, logged, and turn into exit status 1 with no ping.
The second component records the results of the ping calls made. -/
def main (job : JobOutcome) (o : AttemptOutcome) : Int × List Bool :=
  match job with
  | .completes => (0, [ping_cronmonitor o])
  | .keyboardInterrupt => (1, [])
  | .raisesExc => (1, [])

end Simple

/-! ### Helper lemmas -/

/-- The backoff delays produced over a list of failed attempt indices:
`0.5 * a` for each index `a` with `a < retries`. -/
def backoffDelays (retries : Int) (l : List Nat) : List ℚ :=
  (l.filter fun a : Nat => decide ((a : Int) < retries)).map
    fun a : Nat => ((1 : ℚ)/2) * (a : ℚ)

theorem success200_iff (o : AttemptOutcome) :
    success200 o = true ↔ urlopen o = Except.ok 200 := by
  cases h : urlopen o with
  | ok s =>
    unfold success200
    rw [h]
    simp [beq_iff_eq]
  | error e =>
    unfold success200
    rw [h]
    simp

theorem pingFrom_cons (m : CronMonitor) (env : Nat → AttemptOutcome)
    (a : Nat) (rest : List Nat) :
    pingFrom m env (a :: rest) =
      if success200 (env a) then ⟨true, [a], []⟩
      else
        ⟨(pingFrom m env rest).result, a :: (pingFrom m env rest).requests,
          if (a : Int) < m.retries then
            ((1 : ℚ)/2) * a :: (pingFrom m env rest).sleeps
          else (pingFrom m env rest).sleeps⟩ := by
  conv_lhs => rw [pingFrom]

theorem pingFrom_cons_success (m : CronMonitor) (env : Nat → AttemptOutcome)
    (a : Nat) (rest : List Nat) (h : success200 (env a) = true) :
    pingFrom m env (a :: rest) = ⟨true, [a], []⟩ := by
  rw [pingFrom_cons, h]
  rfl

theorem pingFrom_cons_fail (m : CronMonitor) (env : Nat → AttemptOutcome)
    (a : Nat) (rest : List Nat) (h : success200 (env a) = false) :
    pingFrom m env (a :: rest) =
      ⟨(pingFrom m env rest).result, a :: (pingFrom m env rest).requests,
        if (a : Int) < m.retries then
          ((1 : ℚ)/2) * a :: (pingFrom m env rest).sleeps
        else (pingFrom m env rest).sleeps⟩ := by
  rw [pingFrom_cons, h]
  rfl

theorem pingFrom_result_iff (m : CronMonitor) (env : Nat → AttemptOutcome)
    (l : List Nat) :
    (pingFrom m env l).result = true ↔ ∃ a ∈ l, success200 (env a) = true := by
  induction l with
  | nil => simp [pingFrom]
  | cons a rest ih =>
    cases h : success200 (env a) with
    | true => simp [pingFrom_cons_success m env a rest h, h]
    | false => simp [pingFrom_cons_fail m env a rest h, ih, h]

theorem pingFrom_all_fail (m : CronMonitor) (env : Nat → AttemptOutcome)
    (l : List Nat) (h : ∀ a ∈ l, success200 (env a) = false) :
    pingFrom m env l = ⟨false, l, backoffDelays m.retries l⟩ := by
  induction l with
  | nil => simp [pingFrom, backoffDelays]
  | cons a rest ih =>
    have ha : success200 (env a) = false := h a (by simp)
    have hrest : ∀ b ∈ rest, success200 (env b) = false := by
      intro b hb
      exact h b (by simp [hb])
    rw [pingFrom_cons_fail m env a rest ha, ih hrest]
    by_cases hc : (a : Int) < m.retries
    · simp [backoffDelays, List.filter_cons, hc]
    · simp [backoffDelays, List.filter_cons, hc]

theorem backoffDelays_attemptIndices (r : Int) (h : 1 ≤ r) :
    backoffDelays r (attemptIndices r) =
      (attemptIndices (r - 1)).map fun a : Nat => ((1 : ℚ)/2) * (a : ℚ) := by
  obtain ⟨k, hk⟩ : ∃ k : Nat, r.toNat = k + 1 := ⟨r.toNat - 1, by omega⟩
  have hk' : (r - 1).toNat = k := by omega
  unfold backoffDelays attemptIndices
  rw [hk, hk', List.range'_concat]
  rw [List.filter_append]
  have h1 : ((List.range' 1 k).filter fun a : Nat => decide ((a : Int) < r)) =
      List.range' 1 k := by
    rw [List.filter_eq_self]
    intro a ha
    have := List.mem_range'_1.mp ha
    simp only [decide_eq_true_eq]
    omega
  have hlt : ¬ (((1 + 1 * k : Nat) : Int) < r) := by push_cast; omega
  have h2 : (([1 + 1 * k].filter fun a : Nat => decide ((a : Int) < r)) :
      List Nat) = [] := by
    simp only [List.filter_cons, List.filter_nil, decide_eq_false hlt]
    rfl
  rw [h1, h2, List.append_nil]

theorem handleAttempt_tryBody (env : Nat → AttemptOutcome) (a : Nat) :
    handleAttempt (tryBody env a) = Except.ok (success200 (env a)) := by
  unfold handleAttempt tryBody success200
  cases urlopen (env a) with
  | ok s => rfl
  | error e => cases e <;> rfl

theorem pingFromE_cons (m : CronMonitor) (env : Nat → AttemptOutcome)
    (a : Nat) (rest : List Nat) :
    pingFromE m env (a :: rest) =
      match handleAttempt (tryBody env a) with
      | .error e => .error e
      | .ok true => .ok ⟨true, [a], []⟩
      | .ok false =>
        match pingFromE m env rest with
        | .error e => .error e
        | .ok t =>
          .ok ⟨t.result, a :: t.requests,
            if (a : Int) < m.retries then ((1 : ℚ)/2) * a :: t.sleeps
            else t.sleeps⟩ := by
  conv_lhs => rw [pingFromE]

theorem pingFromE_eq (m : CronMonitor) (env : Nat → AttemptOutcome)
    (l : List Nat) : pingFromE m env l = Except.ok (pingFrom m env l) := by
  induction l with
  | nil => rfl
  | cons a rest ih =>
    rw [pingFromE_cons, handleAttempt_tryBody]
    cases h : success200 (env a) with
    | true => rw [pingFrom_cons_success m env a rest h]
    | false => rw [ih, pingFrom_cons_fail m env a rest h]

theorem backoffDelays_all_lt (retries : Int) (l : List Nat)
    (h : ∀ a ∈ l, (a : Int) < retries) :
    backoffDelays retries l = l.map fun a : Nat => ((1 : ℚ)/2) * (a : ℚ) := by
  unfold backoffDelays
  rw [List.filter_eq_self.mpr]
  intro a ha
  simp [h a ha]

theorem pingFrom_first_success (m : CronMonitor) (env : Nat → AttemptOutcome)
    (l₁ l₂ : List Nat) (k : Nat)
    (hfail : ∀ a ∈ l₁, success200 (env a) = false)
    (hsucc : success200 (env k) = true) :
    pingFrom m env (l₁ ++ k :: l₂) =
      ⟨true, l₁ ++ [k], backoffDelays m.retries l₁⟩ := by
  induction l₁ with
  | nil => simp [backoffDelays, pingFrom_cons_success m env k l₂ hsucc]
  | cons a l₁ ih =>
    have ha : success200 (env a) = false := hfail a (by simp)
    have h₁ : ∀ b ∈ l₁, success200 (env b) = false := by
      intro b hb
      exact hfail b (by simp [hb])
    rw [List.cons_append, pingFrom_cons_fail m env a _ ha, ih h₁]
    by_cases hc : (a : Int) < m.retries
    · simp [backoffDelays, List.filter_cons, hc]
    · simp [backoffDelays, List.filter_cons, hc]

theorem attemptIndices_split (r : Int) (k : Nat) (hk : k ∈ attemptIndices r) :
    attemptIndices r =
      List.range' 1 (k - 1) ++ k :: List.range' (k + 1) (r.toNat - k) := by
  have hmem := List.mem_range'_1.mp hk
  have h1k : 1 ≤ k := hmem.1
  have hkr : k ≤ r.toNat := by omega
  have hsucc : List.range' k ((r.toNat - k) + 1) =
      k :: List.range' (k + 1) (r.toNat - k) := List.range'_succ k _ 1
  have happ : List.range' 1 (k - 1) ++ List.range' (1 + (k - 1)) ((r.toNat - k) + 1) =
      List.range' 1 (((r.toNat - k) + 1) + (k - 1)) :=
    List.range'_append_1 1 (k - 1) ((r.toNat - k) + 1)
  rw [show 1 + (k - 1) = k from by omega] at happ
  rw [show ((r.toNat - k) + 1) + (k - 1) = r.toNat from by omega] at happ
  unfold attemptIndices
  rw [← happ, hsucc]

/-! ### Claims -/

/-- C1: for every configuration with `retries ≥ 1`, if every attempt fails
(non-200 status, timeout, or transport error on each of the `retries`
attempts), `ping()` issues exactly `retries` HTTP requests, sleeps exactly
`retries - 1` times between attempts with delays `0.5 * attemptIndex`
(0.5, 1.0, 1.5, ... in order, never after the final attempt), and returns
`false`. -/
theorem ping_all_attempts_fail (token : String) (timeout r : Int)
    (verbose : Bool) (env : Nat → AttemptOutcome) (hr : 1 ≤ r)
    (hfail : ∀ a ∈ attemptIndices r, success200 (env a) = false) :
    (CronMonitor.init token timeout r verbose).ping env =
      ⟨false, attemptIndices r,
        (attemptIndices (r - 1)).map fun a : Nat => ((1 : ℚ)/2) * (a : ℚ)⟩ ∧
    ((CronMonitor.init token timeout r verbose).ping env).requests.length =
      r.toNat ∧
    ((CronMonitor.init token timeout r verbose).ping env).sleeps.length =
      (r - 1).toNat := by
  have hmain : (CronMonitor.init token timeout r verbose).ping env =
      ⟨false, attemptIndices r,
        (attemptIndices (r - 1)).map fun a : Nat => ((1 : ℚ)/2) * (a : ℚ)⟩ := by
    show pingFrom (CronMonitor.init token timeout r verbose) env
        (attemptIndices r) = _
    rw [pingFrom_all_fail _ env _ hfail]
    rw [show (CronMonitor.init token timeout r verbose).retries = r from rfl]
    rw [backoffDelays_attemptIndices r hr]
  refine ⟨hmain, ?_, ?_⟩
  · rw [hmain]
    simp [attemptIndices]
  · rw [hmain]
    simp [attemptIndices]

/-- C1 witness: with `retries = 2` and every attempt timing out, `ping()`
issues requests at attempts 1 and 2, sleeps once for 0.5, and returns
`false`. -/
theorem ping_all_attempts_fail_witness :
    (CronMonitor.init "t" 10 2 false).ping (fun _ => AttemptOutcome.timeout) =
      ⟨false, attemptIndices 2,
        (attemptIndices 1).map fun a : Nat => ((1 : ℚ)/2) * (a : ℚ)⟩ :=
  (ping_all_attempts_fail "t" 10 2 false (fun _ => AttemptOutcome.timeout)
    (by decide) (by decide)).1

/-- C2 counterexample: `simple.ping_cronmonitor` reports success on an
attempt whose response carries HTTP status 204, not 200 (`urlopen` returns
normally for any 2xx status and `simple.py` never inspects the status), so
"success if and only if some attempt receives HTTP status exactly 200" does
not hold for `ping_cronmonitor`. -/
theorem simple_ping_reports_success_without_200 :
    Simple.ping_cronmonitor (AttemptOutcome.response 204) = true ∧
      urlopen (AttemptOutcome.response 204) = Except.ok 204 ∧
      (204 : Nat) ≠ 200 :=
  ⟨rfl, rfl, by decide⟩

/-- C2 (amended): `CronMonitor.ping` succeeds iff some attempt receives HTTP
status exactly 200; if attempt `k` (any position in 1..retries) is the first
to receive status 200, `ping()` returns `true` immediately after exactly the
requests `[1..k]` (none after the success) and the sleeps 0.5, 1.0, ... for
the `k - 1` failed attempts before it; `simple.ping_cronmonitor` reports
success iff its single `urlopen` call returns normally, i.e. iff the final
status is in the 2xx range (not only exactly 200). -/
theorem ping_success_criterion (token : String) (timeout r : Int)
    (verbose : Bool) (env : Nat → AttemptOutcome) :
    (((CronMonitor.init token timeout r verbose).ping env).result = true ↔
      ∃ a ∈ attemptIndices r, urlopen (env a) = Except.ok 200) ∧
    (∀ k ∈ attemptIndices r, urlopen (env k) = Except.ok 200 →
      (∀ a ∈ List.range' 1 (k - 1), urlopen (env a) ≠ Except.ok 200) →
      (CronMonitor.init token timeout r verbose).ping env =
        ⟨true, List.range' 1 k,
          (List.range' 1 (k - 1)).map fun a : Nat => ((1 : ℚ)/2) * (a : ℚ)⟩) ∧
    (∀ o : AttemptOutcome, Simple.ping_cronmonitor o = true ↔
      ∃ s, urlopen o = Except.ok s) := by
  refine ⟨?_, ?_, ?_⟩
  · show (pingFrom (CronMonitor.init token timeout r verbose) env
      (attemptIndices r)).result = true ↔ _
    rw [pingFrom_result_iff]
    constructor
    · rintro ⟨a, ha, hs⟩
      exact ⟨a, ha, (success200_iff _).mp hs⟩
    · rintro ⟨a, ha, hs⟩
      exact ⟨a, ha, (success200_iff _).mpr hs⟩
  · intro k hk h200 hprev
    have h1k : 1 ≤ k := (List.mem_range'_1.mp hk).1
    have hsucc : success200 (env k) = true := (success200_iff _).mpr h200
    have hfail : ∀ a ∈ List.range' 1 (k - 1), success200 (env a) = false := by
      intro a ha
      cases hcase : success200 (env a) with
      | false => rfl
      | true => exact absurd ((success200_iff _).mp hcase) (hprev a ha)
    show pingFrom (CronMonitor.init token timeout r verbose) env
        (attemptIndices r) = _
    rw [attemptIndices_split r k hk,
      pingFrom_first_success _ env _ _ k hfail hsucc]
    rw [show (CronMonitor.init token timeout r verbose).retries = r from rfl]
    have hreq : List.range' 1 (k - 1) ++ [k] = List.range' 1 k := by
      have hcat : List.range' 1 ((k - 1) + 1) =
          List.range' 1 (k - 1) ++ [1 + 1 * (k - 1)] := List.range'_concat 1 (k - 1)
      rw [show (k - 1) + 1 = k from by omega] at hcat
      rw [show 1 + 1 * (k - 1) = k from by omega] at hcat
      exact hcat.symm
    have hslp : backoffDelays r (List.range' 1 (k - 1)) =
        (List.range' 1 (k - 1)).map fun a : Nat => ((1 : ℚ)/2) * (a : ℚ) := by
      apply backoffDelays_all_lt
      intro a ha
      have hb := List.mem_range'_1.mp ha
      have hkr := List.mem_range'_1.mp hk
      omega
    rw [hreq, hslp]
  · intro o
    cases h : urlopen o with
    | ok s =>
      unfold Simple.ping_cronmonitor
      rw [h]
      simp
    | error e =>
      unfold Simple.ping_cronmonitor
      rw [h]
      simp

/-- C2 witness: with `retries = 3`, attempts 1 and 2 failing with transport
errors and attempt 3 returning 200, `ping()` returns `true` after exactly
the requests `[1, 2, 3]` and the sleeps `[0.5, 1.0]`. -/
theorem ping_success_criterion_witness :
    (CronMonitor.init "t" 10 3 false).ping
      (fun a => if a ≤ 2 then AttemptOutcome.transportError
        else AttemptOutcome.response 200) =
      ⟨true, List.range' 1 3,
        (List.range' 1 2).map fun a : Nat => ((1 : ℚ)/2) * (a : ℚ)⟩ :=
  (ping_success_criterion "t" 10 3 false
    (fun a => if a ≤ 2 then AttemptOutcome.transportError
      else AttemptOutcome.response 200)).2.1 3 (by decide) (by rfl)
    (by intro a ha; fin_cases ha <;> simp [urlopen])

/-- C3: for every configuration and every sequence of attempt outcomes
(including exceptions raised by the underlying HTTP request), `ping()`
completes without propagating an exception, returning the boolean trace:
the exception-explicit semantics always yields `Except.ok`. -/
theorem ping_never_raises (token : String) (timeout r : Int) (verbose : Bool)
    (env : Nat → AttemptOutcome) :
    (CronMonitor.init token timeout r verbose).pingE env =
      Except.ok ((CronMonitor.init token timeout r verbose).ping env) :=
  pingFromE_eq _ env _

/-- C4: if the wrapped job raises, the callable returned by `wrap` issues
zero HTTP requests and propagates that same exception unchanged. -/
theorem wrap_raising_job_propagates {E V : Type} (token : String)
    (timeout r : Int) (verbose : Bool) (env : Nat → AttemptOutcome) (e : E) :
    (CronMonitor.init token timeout r verbose).wrap env
      (Except.error e : Except E V) = (Except.error e, []) :=
  rfl

/-- C5: on scope exit with a propagating exception, `__exit__` performs no
delivery attempt (zero `ping()` calls, zero HTTP requests) and returns
`False` so the exception continues to propagate; on normal completion it
returns `False` and invokes `ping()` exactly once. -/
theorem exit_ping_discipline {E : Type} (token : String) (timeout r : Int)
    (verbose : Bool) (env : Nat → AttemptOutcome) (exc : E) :
    (CronMonitor.init token timeout r verbose).exitCtx env (some exc) =
      (false, 0, []) ∧
    (CronMonitor.init token timeout r verbose).exitCtx env (none : Option E) =
      (false, 1,
        ((CronMonitor.init token timeout r verbose).ping env).requests) :=
  ⟨rfl, rfl⟩

/-- C6: if the wrapped job returns `v` without raising, the callable
returned by `wrap` returns exactly `v`, for every sequence of attempt
outcomes (hence regardless of whether the delivery attempt succeeds). -/
theorem wrap_returns_job_value {E V : Type} (token : String)
    (timeout r : Int) (verbose : Bool) (env : Nat → AttemptOutcome) (v : V) :
    ((CronMonitor.init token timeout r verbose).wrap env
      (Except.ok v : Except E V)).1 = Except.ok v :=
  rfl

/-- C7: `simple.main` returns exit status 0 whenever `run_job` completes,
making exactly one delivery attempt regardless of its boolean outcome; if
the job raises or is interrupted it returns 1 with no delivery attempt. -/
theorem main_exit_codes (o : AttemptOutcome) :
    (Simple.main Simple.JobOutcome.completes o).1 = 0 ∧
    (Simple.main Simple.JobOutcome.completes o).2.length = 1 ∧
    Simple.main Simple.JobOutcome.keyboardInterrupt o = (1, []) ∧
    Simple.main Simple.JobOutcome.raisesExc o = (1, []) :=
  ⟨rfl, rfl, rfl, rfl⟩

/-- C8: the standalone `ping(token, timeout)` is equivalent to constructing
a `CronMonitor` with that token and timeout and defaults `retries = 3`,
`verbose = False`, then calling `ping()`: same boolean result and same
request sequence on every environment. -/
theorem standalone_ping_equiv (token : String) (timeout : Int)
    (env : Nat → AttemptOutcome) :
    pingStandalone token timeout env = pingSpecDefault token timeout env ∧
    (pingStandalone token timeout env).result =
      ((CronMonitor.init token timeout 3 false).ping env).result ∧
    (pingStandalone token timeout env).requests =
      ((CronMonitor.init token timeout 3 false).ping env).requests :=
  ⟨rfl, rfl, rfl⟩

/-- C9: the configuration (token, timeout, retries, verbose, derived ping
URL) is immutable after construction: `__init__` stores exactly its
arguments, and `ping`, `wrap`, `__enter__`, `__exit__` all leave the
post-state equal to the constructed instance. -/
theorem config_immutable {E V : Type} (token : String) (timeout r : Int)
    (verbose : Bool) (env : Nat → AttemptOutcome) (job : Except E V)
    (exc : Option E) :
    ((CronMonitor.init token timeout r verbose).token = token ∧
      (CronMonitor.init token timeout r verbose).timeout = timeout ∧
      (CronMonitor.init token timeout r verbose).retries = r ∧
      (CronMonitor.init token timeout r verbose).verbose = verbose ∧
      (CronMonitor.init token timeout r verbose).ping_url =
        BASE_URL ++ "/ping/" ++ token) ∧
    ((CronMonitor.init token timeout r verbose).pingOp env).2 =
      CronMonitor.init token timeout r verbose ∧
    ((CronMonitor.init token timeout r verbose).wrapOp env job).2 =
      CronMonitor.init token timeout r verbose ∧
    (CronMonitor.init token timeout r verbose).enterOp.2 =
      CronMonitor.init token timeout r verbose ∧
    ((CronMonitor.init token timeout r verbose).exitOp env exc).2 =
      CronMonitor.init token timeout r verbose := by
  refine ⟨⟨rfl, rfl, rfl, rfl, rfl⟩, rfl, ?_, rfl, ?_⟩
  · cases job <;> rfl
  · cases exc <;> rfl

/-- C10: the constructor validates nothing (an empty token and
`retries = 0` are accepted, storing exactly those values), and for
`retries ≤ 0` the retry loop body never runs: `ping()` issues zero HTTP
requests, sleeps zero times, and returns `false`. -/
theorem init_no_validation_zero_retries (token : String) (timeout r : Int)
    (verbose : Bool) (env : Nat → AttemptOutcome) (h : r ≤ 0) :
    (CronMonitor.init token timeout r verbose).ping env =
      ⟨false, [], []⟩ ∧
    (CronMonitor.init "" timeout 0 verbose).token = "" ∧
    (CronMonitor.init "" timeout 0 verbose).retries = 0 ∧
    (CronMonitor.init "" timeout 0 verbose).ping_url =
      "https://cronmonitor.app/ping/" := by
  refine ⟨?_, rfl, rfl, rfl⟩
  have h0 : r.toNat = 0 := by omega
  show pingFrom (CronMonitor.init token timeout r verbose) env
      (attemptIndices r) = _
  unfold attemptIndices
  rw [h0]
  rfl

/-- C10 witness: a monitor constructed with `retries = -1` pings nothing
and returns `false`. -/
theorem init_no_validation_zero_retries_witness :
    (CronMonitor.init "x" 10 (-1) true).ping
      (fun _ => AttemptOutcome.response 200) = ⟨false, [], []⟩ :=
  (init_no_validation_zero_retries "x" 10 (-1) true
    (fun _ => AttemptOutcome.response 200) (by decide)).1
